import Mathlib

/-!
Shallow embedding of the two kopf operators in this repository:
`simpleapp-operator.py` (reconciles `simpleapps` into a Deployment) and
`configmapapp-operator.py` (reconciles `configmapapps` into a Deployment
plus a ConfigMap).

The kubernetes client bodies are embedded as plain structures; an absent
optional field of the python client object (e.g. `volume_mounts` in the
simpleapp deployment) is embedded as the empty list.  The cluster API is a
record of the four calls the operators make; a concrete instance
(`clusterApi`) models a namespace-keyed object store in which `create`
fails with status 409 exactly when the name is taken, and `patch` fails
with 404 exactly when it is not.  Each reconcile run returns the final
store, the ordered trace of attempted API calls and emitted `kopf.info`
notifications, and the exception it raises, if any (python `raise` is
embedded as `some e`).
-/

/-- An `ApiException` carries only the status code the operators inspect. -/
structure ApiError where
  status : Nat
deriving DecidableEq

/-- The dynamic custom-resource spec mapping: the three keys the operators
read, each possibly absent.  `spec.get k` with a default is embedded as
`Option.getD`. -/
structure Spec where
  image : Option String
  replicas : Option Nat
  configData : Option (List (String × String))
deriving DecidableEq

structure VolumeMount where
  name : String
  mount_path : String
deriving DecidableEq

structure Volume where
  name : String
  config_map_name : String
deriving DecidableEq

structure Container where
  name : String
  image : Option String
  volume_mounts : List VolumeMount
deriving DecidableEq

/-- The fields of `client.V1Deployment` the operators set. -/
structure DeploymentBody where
  name : String
  labels : List (String × String)
  replicas : Nat
  selector_match_labels : List (String × String)
  template_labels : List (String × String)
  containers : List Container
  volumes : List Volume
deriving DecidableEq

/-- The fields of `client.V1ConfigMap` the operator sets. -/
structure ConfigMapBody where
  name : String
  labels : List (String × String)
  data : List (String × String)
deriving DecidableEq

/-- One attempted cluster API call or one emitted `kopf.info` notification,
in program order.  An API call is recorded whether or not it succeeds. -/
inductive Event where
  | createDep (ns : String) (body : DeploymentBody)
  | patchDep (name ns : String) (body : DeploymentBody)
  | createCM (ns : String) (body : ConfigMapBody)
  | patchCM (name ns : String) (body : ConfigMapBody)
  | info (reason message : String)
deriving DecidableEq

/-- The cluster API surface the operators call, over an abstract cluster
state `σ`.  Argument order follows the python client:
`create_namespaced_*(namespace, body)`, `patch_namespaced_*(name,
namespace, body)`. -/
structure Api (σ : Type) where
  create_namespaced_deployment : σ → String → DeploymentBody → Except ApiError σ
  patch_namespaced_deployment : σ → String → String → DeploymentBody → Except ApiError σ
  create_namespaced_config_map : σ → String → ConfigMapBody → Except ApiError σ
  patch_namespaced_config_map : σ → String → String → ConfigMapBody → Except ApiError σ

/-- `spec.get('replicas', 1)`. -/
def normalizeReplicas (spec : Spec) : Nat := spec.replicas.getD 1

/-- `spec.get('configData', {})`. -/
def normalizeConfigData (spec : Spec) : List (String × String) := spec.configData.getD []

/-- `spec.get('image')`. -/
def normalizeImage (spec : Spec) : Option String := spec.image

namespace simpleapp

/-- The `client.V1Deployment(...)` literal of `simpleapp-operator.py`
(lines 16-40): no volume mounts and no volumes are set. -/
def deployment (name : String) (image : Option String) (replicas : Nat) : DeploymentBody :=
  { name := name ++ "-deployment"
    labels := [("app", name)]
    replicas := replicas
    selector_match_labels := [("app", name)]
    template_labels := [("app", name)]
    containers := [{ name := "app", image := image, volume_mounts := [] }]
    volumes := [] }

/-- `reconcile` of `simpleapp-operator.py`: build the deployment, try to
create it, and on an `ApiException` with status 409 patch it instead;
any other status is re-raised. -/
def reconcile {σ : Type} (api : Api σ) (spec : Spec) (name ns : String) (st : σ) :
    σ × List Event × Option ApiError :=
  let image := normalizeImage spec
  let replicas := normalizeReplicas spec
  let deployment_name := name ++ "-deployment"
  let dep := deployment name image replicas
  match api.create_namespaced_deployment st ns dep with
  | .ok st1 =>
      (st1, [.createDep ns dep,
             .info "Created" ("Deployment " ++ deployment_name ++ " created")], none)
  | .error e =>
      if e.status = 409 then
        match api.patch_namespaced_deployment st deployment_name ns dep with
        | .ok st1 =>
            (st1, [.createDep ns dep, .patchDep deployment_name ns dep,
                   .info "Updated" ("Deployment " ++ deployment_name ++ " updated")], none)
        | .error e2 =>
            (st, [.createDep ns dep, .patchDep deployment_name ns dep], some e2)
      else
        (st, [.createDep ns dep], some e)

end simpleapp

namespace configmapapp

/-- The `client.V1Deployment(...)` literal of `configmapapp-operator.py`
(lines 20-58): the container mounts `config-volume` at `/etc/config`, the
pod has one volume sourced from the `{name}-configmap` ConfigMap. -/
def deployment (name : String) (image : Option String) (replicas : Nat) : DeploymentBody :=
  { name := name ++ "-deployment"
    labels := [("app", name)]
    replicas := replicas
    selector_match_labels := [("app", name)]
    template_labels := [("app", name)]
    containers := [{ name := "app", image := image,
                     volume_mounts := [{ name := "config-volume", mount_path := "/etc/config" }] }]
    volumes := [{ name := "config-volume", config_map_name := name ++ "-configmap" }] }

/-- The `client.V1ConfigMap(...)` literal of `configmapapp-operator.py`
(lines 60-66). -/
def configmap (name : String) (config_data : List (String × String)) : ConfigMapBody :=
  { name := name ++ "-configmap"
    labels := [("app", name)]
    data := config_data }

/-- The `except` block of `configmapapp-operator.py` when `e.status == 409`
(lines 93-116): patch the deployment, notify, patch the configmap, notify.
An exception raised by either patch propagates out of the handler; the
configmap patch is only reached when the deployment patch succeeded.  The
final notification message interpolates the owner `name`, not
`configmap_name` (line 115 of the source file). -/
def conflictHandler {σ : Type} (api : Api σ) (name ns : String)
    (dep : DeploymentBody) (cm : ConfigMapBody) (st : σ) (pre : List Event) :
    σ × List Event × Option ApiError :=
  let deployment_name := name ++ "-deployment"
  let configmap_name := name ++ "-configmap"
  match api.patch_namespaced_deployment st deployment_name ns dep with
  | .error e2 =>
      (st, pre ++ [.patchDep deployment_name ns dep], some e2)
  | .ok st1 =>
      match api.patch_namespaced_config_map st1 configmap_name ns cm with
      | .error e3 =>
          (st1, pre ++ [.patchDep deployment_name ns dep,
                        .info "Updated" ("Deployment " ++ deployment_name ++ " updated"),
                        .patchCM configmap_name ns cm], some e3)
      | .ok st2 =>
          (st2, pre ++ [.patchDep deployment_name ns dep,
                        .info "Updated" ("Deployment " ++ deployment_name ++ " updated"),
                        .patchCM configmap_name ns cm,
                        .info "Updated" ("ConfigMap " ++ name ++ " updated")], none)

/-- `reconcile` of `configmapapp-operator.py`: build both bodies, then one
`try` block creates the deployment and then the configmap; a 409 from
either create enters the shared handler, any other `ApiException` status is
re-raised at once. -/
def reconcile {σ : Type} (api : Api σ) (spec : Spec) (name ns : String) (st : σ) :
    σ × List Event × Option ApiError :=
  let image := normalizeImage spec
  let replicas := normalizeReplicas spec
  let config_data := normalizeConfigData spec
  let deployment_name := name ++ "-deployment"
  let configmap_name := name ++ "-configmap"
  let dep := deployment name image replicas
  let cm := configmap name config_data
  match api.create_namespaced_deployment st ns dep with
  | .error e =>
      if e.status = 409 then
        conflictHandler api name ns dep cm st [.createDep ns dep]
      else
        (st, [.createDep ns dep], some e)
  | .ok st1 =>
      match api.create_namespaced_config_map st1 ns cm with
      | .error e =>
          if e.status = 409 then
            conflictHandler api name ns dep cm st1
              [.createDep ns dep,
               .info "Created" ("Deployment " ++ deployment_name ++ " created"),
               .createCM ns cm]
          else
            (st1, [.createDep ns dep,
                   .info "Created" ("Deployment " ++ deployment_name ++ " created"),
                   .createCM ns cm], some e)
      | .ok st2 =>
          (st2, [.createDep ns dep,
                 .info "Created" ("Deployment " ++ deployment_name ++ " created"),
                 .createCM ns cm,
                 .info "Created" ("ConfigMap " ++ configmap_name ++ " created")], none)

end configmapapp

/-! ### A concrete model of the cluster object store

Objects are keyed by `(namespace, name)`.  `create` inserts and fails with
409 (AlreadyExists / Conflict) when the key is taken; `patch` replaces the
stored body and fails with 404 when the key is absent. -/

abbrev Key := String × String

def find? {β : Type} : List (Key × β) → Key → Option β
  | [], _ => none
  | (k', v) :: t, k => if k' = k then some v else find? t k

def replaceKey {β : Type} : List (Key × β) → Key → β → List (Key × β)
  | [], _, _ => []
  | (k', v') :: t, k, v => if k' = k then (k', v) :: t else (k', v') :: replaceKey t k v

structure Cluster where
  deps : List (Key × DeploymentBody)
  cms : List (Key × ConfigMapBody)
deriving DecidableEq

def clusterApi : Api Cluster where
  create_namespaced_deployment := fun st ns body =>
    if (find? st.deps (ns, body.name)).isSome then .error ⟨409⟩
    else .ok { st with deps := ((ns, body.name), body) :: st.deps }
  patch_namespaced_deployment := fun st dn ns body =>
    if (find? st.deps (ns, dn)).isSome then
      .ok { st with deps := replaceKey st.deps (ns, dn) body }
    else .error ⟨404⟩
  create_namespaced_config_map := fun st ns body =>
    if (find? st.cms (ns, body.name)).isSome then .error ⟨409⟩
    else .ok { st with cms := ((ns, body.name), body) :: st.cms }
  patch_namespaced_config_map := fun st cn ns body =>
    if (find? st.cms (ns, cn)).isSome then
      .ok { st with cms := replaceKey st.cms (ns, cn) body }
    else .error ⟨404⟩

/-! ### Trace observations -/

def Event.isDepCall : Event → Bool
  | .createDep _ _ => true
  | .patchDep _ _ _ => true
  | _ => false

def Event.isCMCall : Event → Bool
  | .createCM _ _ => true
  | .patchCM _ _ _ => true
  | _ => false

def Event.isCreateDep : Event → Bool
  | .createDep _ _ => true
  | _ => false

def Event.isPatchDep : Event → Bool
  | .patchDep _ _ _ => true
  | _ => false

def Event.isCreateCM : Event → Bool
  | .createCM _ _ => true
  | _ => false

def Event.isPatchCM : Event → Bool
  | .patchCM _ _ _ => true
  | _ => false

/-- The deployment body an event carries, when it is a deployment call. -/
def Event.depBodyOf : Event → Option DeploymentBody
  | .createDep _ b => some b
  | .patchDep _ _ b => some b
  | _ => none

/-- The configmap body an event carries, when it is a configmap call. -/
def Event.cmBodyOf : Event → Option ConfigMapBody
  | .createCM _ b => some b
  | .patchCM _ _ b => some b
  | _ => none

/-- `true` when some Workload-addressed call occurs at or after the first
Configuration-addressed call of the trace. -/
def depCallAfterCMCall (tr : List Event) : Bool :=
  (tr.dropWhile (fun e => !e.isCMCall)).any Event.isDepCall

/-- `true` when some Workload patch occurs at or after the first
Configuration patch of the trace. -/
def patchDepAfterPatchCM (tr : List Event) : Bool :=
  (tr.dropWhile (fun e => !e.isPatchCM)).any Event.isPatchDep

/-- A cluster API in which every call is rejected with status 500: a stand-in
for a fatally misconfigured or unreachable API server. -/
def errorApi : Api Cluster where
  create_namespaced_deployment := fun _ _ _ => .error ⟨500⟩
  patch_namespaced_deployment := fun _ _ _ _ => .error ⟨500⟩
  create_namespaced_config_map := fun _ _ _ => .error ⟨500⟩
  patch_namespaced_config_map := fun _ _ _ _ => .error ⟨500⟩

/-! ### Helper lemmas about the concrete store -/


theorem find?_cons_self {β : Type} (l : List (Key × β)) (k : Key) (v : β) :
    find? ((k, v) :: l) k = some v := by simp [find?]

theorem replaceKey_self {β : Type} :
    ∀ (l : List (Key × β)) (k : Key) (v : β), find? l k = some v → replaceKey l k v = l := by
  intro l k v h
  induction l with
  | nil => rfl
  | cons hd t ih =>
    obtain ⟨k', v'⟩ := hd
    by_cases hk : k' = k
    · subst hk
      simp [find?] at h
      simp [replaceKey, h]
    · simp [find?, hk] at h
      simp [replaceKey, hk, ih h]

theorem find?_replaceKey_self {β : Type} :
    ∀ (l : List (Key × β)) (k : Key) (v : β), (find? l k).isSome →
      find? (replaceKey l k v) k = some v := by
  intro l k v h
  induction l with
  | nil => simp [find?] at h
  | cons hd t ih =>
    obtain ⟨k', v'⟩ := hd
    by_cases hk : k' = k
    · subst hk
      simp [replaceKey, find?]
    · simp [find?, hk] at h
      simp [replaceKey, find?, hk, ih h]

-- characterization: both absent
theorem configmapapp_reconcile_both_absent (spec : Spec) (name ns : String) (st : Cluster)
    (hd : find? st.deps (ns, name ++ "-deployment") = none)
    (hc : find? st.cms (ns, name ++ "-configmap") = none) :
    configmapapp.reconcile clusterApi spec name ns st =
      ({ deps := ((ns, name ++ "-deployment"),
            configmapapp.deployment name (normalizeImage spec) (normalizeReplicas spec)) :: st.deps,
         cms := ((ns, name ++ "-configmap"),
            configmapapp.configmap name (normalizeConfigData spec)) :: st.cms },
       [.createDep ns (configmapapp.deployment name (normalizeImage spec) (normalizeReplicas spec)),
        .info "Created" ("Deployment " ++ (name ++ "-deployment") ++ " created"),
        .createCM ns (configmapapp.configmap name (normalizeConfigData spec)),
        .info "Created" ("ConfigMap " ++ (name ++ "-configmap") ++ " created")],
       none) := by
  simp [configmapapp.reconcile, clusterApi, configmapapp.deployment, configmapapp.configmap] at *
  simp [hd, hc, configmapapp.deployment, configmapapp.configmap]

theorem configmapapp_reconcile_dep_absent_cm_present (spec : Spec) (name ns : String)
    (st : Cluster) (c0 : ConfigMapBody)
    (hd : find? st.deps (ns, name ++ "-deployment") = none)
    (hc : find? st.cms (ns, name ++ "-configmap") = some c0) :
    configmapapp.reconcile clusterApi spec name ns st =
      ({ deps := ((ns, name ++ "-deployment"),
            configmapapp.deployment name (normalizeImage spec) (normalizeReplicas spec)) :: st.deps,
         cms := replaceKey st.cms (ns, name ++ "-configmap")
            (configmapapp.configmap name (normalizeConfigData spec)) },
       [.createDep ns (configmapapp.deployment name (normalizeImage spec) (normalizeReplicas spec)),
        .info "Created" ("Deployment " ++ (name ++ "-deployment") ++ " created"),
        .createCM ns (configmapapp.configmap name (normalizeConfigData spec)),
        .patchDep (name ++ "-deployment") ns
          (configmapapp.deployment name (normalizeImage spec) (normalizeReplicas spec)),
        .info "Updated" ("Deployment " ++ (name ++ "-deployment") ++ " updated"),
        .patchCM (name ++ "-configmap") ns (configmapapp.configmap name (normalizeConfigData spec)),
        .info "Updated" ("ConfigMap " ++ name ++ " updated")],
       none) := by
  simp only [configmapapp.reconcile, clusterApi, configmapapp.conflictHandler]
  simp [configmapapp.deployment, configmapapp.configmap, hd, hc, find?, replaceKey]

theorem configmapapp_reconcile_dep_present_cm_present (spec : Spec) (name ns : String)
    (st : Cluster) (d0 : DeploymentBody) (c0 : ConfigMapBody)
    (hd : find? st.deps (ns, name ++ "-deployment") = some d0)
    (hc : find? st.cms (ns, name ++ "-configmap") = some c0) :
    configmapapp.reconcile clusterApi spec name ns st =
      ({ deps := replaceKey st.deps (ns, name ++ "-deployment")
            (configmapapp.deployment name (normalizeImage spec) (normalizeReplicas spec)),
         cms := replaceKey st.cms (ns, name ++ "-configmap")
            (configmapapp.configmap name (normalizeConfigData spec)) },
       [.createDep ns (configmapapp.deployment name (normalizeImage spec) (normalizeReplicas spec)),
        .patchDep (name ++ "-deployment") ns
          (configmapapp.deployment name (normalizeImage spec) (normalizeReplicas spec)),
        .info "Updated" ("Deployment " ++ (name ++ "-deployment") ++ " updated"),
        .patchCM (name ++ "-configmap") ns (configmapapp.configmap name (normalizeConfigData spec)),
        .info "Updated" ("ConfigMap " ++ name ++ " updated")],
       none) := by
  simp only [configmapapp.reconcile, clusterApi, configmapapp.conflictHandler]
  simp [configmapapp.deployment, configmapapp.configmap, hd, hc]

theorem configmapapp_reconcile_dep_present_cm_absent (spec : Spec) (name ns : String)
    (st : Cluster) (d0 : DeploymentBody)
    (hd : find? st.deps (ns, name ++ "-deployment") = some d0)
    (hc : find? st.cms (ns, name ++ "-configmap") = none) :
    configmapapp.reconcile clusterApi spec name ns st =
      ({ deps := replaceKey st.deps (ns, name ++ "-deployment")
            (configmapapp.deployment name (normalizeImage spec) (normalizeReplicas spec)),
         cms := st.cms },
       [.createDep ns (configmapapp.deployment name (normalizeImage spec) (normalizeReplicas spec)),
        .patchDep (name ++ "-deployment") ns
          (configmapapp.deployment name (normalizeImage spec) (normalizeReplicas spec)),
        .info "Updated" ("Deployment " ++ (name ++ "-deployment") ++ " updated"),
        .patchCM (name ++ "-configmap") ns (configmapapp.configmap name (normalizeConfigData spec))],
       some ⟨404⟩) := by
  simp only [configmapapp.reconcile, clusterApi, configmapapp.conflictHandler]
  simp [configmapapp.deployment, configmapapp.configmap, hd, hc]

theorem simpleapp_reconcile_dep_absent (spec : Spec) (name ns : String) (st : Cluster)
    (hd : find? st.deps (ns, name ++ "-deployment") = none) :
    simpleapp.reconcile clusterApi spec name ns st =
      ({ st with deps := (((ns, name ++ "-deployment"),
            simpleapp.deployment name (normalizeImage spec) (normalizeReplicas spec)) :: st.deps) },
       [.createDep ns (simpleapp.deployment name (normalizeImage spec) (normalizeReplicas spec)),
        .info "Created" ("Deployment " ++ (name ++ "-deployment") ++ " created")],
       none) := by
  simp only [simpleapp.reconcile, clusterApi]
  simp [simpleapp.deployment, hd]

theorem simpleapp_reconcile_dep_present (spec : Spec) (name ns : String) (st : Cluster)
    (d0 : DeploymentBody)
    (hd : find? st.deps (ns, name ++ "-deployment") = some d0) :
    simpleapp.reconcile clusterApi spec name ns st =
      ({ st with deps := (replaceKey st.deps (ns, name ++ "-deployment")
            (simpleapp.deployment name (normalizeImage spec) (normalizeReplicas spec))) },
       [.createDep ns (simpleapp.deployment name (normalizeImage spec) (normalizeReplicas spec)),
        .patchDep (name ++ "-deployment") ns
          (simpleapp.deployment name (normalizeImage spec) (normalizeReplicas spec)),
        .info "Updated" ("Deployment " ++ (name ++ "-deployment") ++ " updated")],
       none) := by
  simp only [simpleapp.reconcile, clusterApi]
  simp [simpleapp.deployment, hd]

/-! ### String lemmas for comparing notification messages -/

theorem dep_msg_ne_cm_msg (x y u v : String) :
    ("Deployment " ++ x ++ u) ≠ ("ConfigMap " ++ y ++ v) := by
  intro h
  have h2 := congrArg String.data h
  simp [String.data_append] at h2

theorem cm_msg_ne_dep_msg (x y u v : String) :
    ("ConfigMap " ++ x ++ u) ≠ ("Deployment " ++ y ++ v) := by
  intro h
  have h2 := congrArg String.data h
  simp [String.data_append] at h2

theorem cm_updated_long_ne_short (name : String) :
    ("ConfigMap " ++ (name ++ "-configmap") ++ " updated") ≠
      ("ConfigMap " ++ name ++ " updated") := by
  intro h
  have h2 := congrArg String.data h
  simp [String.data_append] at h2

theorem cm_updated_short_ne_long (name : String) :
    ("ConfigMap " ++ name ++ " updated") ≠
      ("ConfigMap " ++ (name ++ "-configmap") ++ " updated") := by
  intro h
  exact cm_updated_long_ne_short name h.symm

/-! ### Which bodies appear in a reconcile trace -/

theorem configmapapp_trace_dep_bodies {σ : Type} (api : Api σ) (spec : Spec) (name ns : String)
    (st : σ) :
    ∀ ev ∈ (configmapapp.reconcile api spec name ns st).2.1,
      ev.depBodyOf = none ∨
      ev.depBodyOf = some (configmapapp.deployment name (normalizeImage spec)
        (normalizeReplicas spec)) := by
  simp only [configmapapp.reconcile, configmapapp.conflictHandler]
  repeat' split
  all_goals simp [Event.depBodyOf, List.forall_mem_cons, List.forall_mem_append]

theorem configmapapp_trace_cm_bodies {σ : Type} (api : Api σ) (spec : Spec) (name ns : String)
    (st : σ) :
    ∀ ev ∈ (configmapapp.reconcile api spec name ns st).2.1,
      ev.cmBodyOf = none ∨
      ev.cmBodyOf = some (configmapapp.configmap name (normalizeConfigData spec)) := by
  simp only [configmapapp.reconcile, configmapapp.conflictHandler]
  repeat' split
  all_goals simp [Event.cmBodyOf, List.forall_mem_cons, List.forall_mem_append]

theorem simpleapp_trace_dep_bodies {σ : Type} (api : Api σ) (spec : Spec) (name ns : String)
    (st : σ) :
    ∀ ev ∈ (simpleapp.reconcile api spec name ns st).2.1,
      ev.depBodyOf = none ∨
      ev.depBodyOf = some (simpleapp.deployment name (normalizeImage spec)
        (normalizeReplicas spec)) := by
  simp only [simpleapp.reconcile]
  repeat' split
  all_goals simp [Event.depBodyOf, List.forall_mem_cons]

/-! ### The store right after a successful reconcile -/

theorem configmapapp_success_find (spec : Spec) (name ns : String) (st : Cluster)
    (h : (configmapapp.reconcile clusterApi spec name ns st).2.2 = none) :
    find? (configmapapp.reconcile clusterApi spec name ns st).1.deps (ns, name ++ "-deployment") =
      some (configmapapp.deployment name (normalizeImage spec) (normalizeReplicas spec)) ∧
    find? (configmapapp.reconcile clusterApi spec name ns st).1.cms (ns, name ++ "-configmap") =
      some (configmapapp.configmap name (normalizeConfigData spec)) := by
  rcases hd : find? st.deps (ns, name ++ "-deployment") with _ | d0 <;>
    rcases hc : find? st.cms (ns, name ++ "-configmap") with _ | c0
  · rw [configmapapp_reconcile_both_absent spec name ns st hd hc]
    simp [find?_cons_self]
  · rw [configmapapp_reconcile_dep_absent_cm_present spec name ns st c0 hd hc]
    refine ⟨find?_cons_self _ _ _, ?_⟩
    exact find?_replaceKey_self st.cms _ _ (by simp [hc])
  · rw [configmapapp_reconcile_dep_present_cm_absent spec name ns st d0 hd hc] at h
    simp at h
  · rw [configmapapp_reconcile_dep_present_cm_present spec name ns st d0 c0 hd hc]
    exact ⟨find?_replaceKey_self st.deps _ _ (by simp [hd]),
           find?_replaceKey_self st.cms _ _ (by simp [hc])⟩

theorem simpleapp_success_find (spec : Spec) (name ns : String) (st : Cluster) :
    find? (simpleapp.reconcile clusterApi spec name ns st).1.deps (ns, name ++ "-deployment") =
      some (simpleapp.deployment name (normalizeImage spec) (normalizeReplicas spec)) := by
  rcases hd : find? st.deps (ns, name ++ "-deployment") with _ | d0
  · rw [simpleapp_reconcile_dep_absent spec name ns st hd]
    simp [find?_cons_self]
  · rw [simpleapp_reconcile_dep_present spec name ns st d0 hd]
    exact find?_replaceKey_self st.deps _ _ (by simp [hd])

/-! ### Claims -/

/-- Claim C1, counterexample: with the owner named `web`, the Workload
already present in namespace `default` and the Configuration absent, the
configmapapps reconcile patches the ConfigMap although a create for the
ConfigMap was never attempted (the Deployment create raised 409 before
reaching the ConfigMap create, and the shared handler patches both). -/
theorem configmap_patched_without_create_attempt :
    ((configmapapp.reconcile clusterApi ⟨some "nginx:1.25", none, none⟩ "web" "default"
        ⟨[(("default", "web-deployment"), configmapapp.deployment "web" (some "old") 2)],
         []⟩).2.1.any Event.isPatchCM = true) ∧
    ((configmapapp.reconcile clusterApi ⟨some "nginx:1.25", none, none⟩ "web" "default"
        ⟨[(("default", "web-deployment"), configmapapp.deployment "web" (some "old") 2)],
         []⟩).2.1.any Event.isCreateCM = false) := by
  constructor <;> rfl

/-- Claim C1, amended: in the simpleapps variant the Workload is patched
exactly when its own create failed with 409.  In the configmapapps variant
both targets share one exception handler, so the Workload is patched
exactly when either create (its own, or the ConfigMap's) failed with 409,
and the ConfigMap is only ever patched together with the Workload —
a target may therefore be patched although its own create succeeded or was
never attempted. -/
theorem patch_only_after_conflict {σ : Type} (api : Api σ) (spec : Spec) (name ns : String)
    (st : σ) :
    (((simpleapp.reconcile api spec name ns st).2.1.any Event.isPatchDep = true) ↔
      (∃ e, api.create_namespaced_deployment st ns
          (simpleapp.deployment name (normalizeImage spec) (normalizeReplicas spec)) = .error e ∧
        e.status = 409)) ∧
    (((configmapapp.reconcile api spec name ns st).2.1.any Event.isPatchDep = true) ↔
      ((∃ e, api.create_namespaced_deployment st ns
          (configmapapp.deployment name (normalizeImage spec) (normalizeReplicas spec)) =
            .error e ∧ e.status = 409) ∨
       (∃ st1 e, api.create_namespaced_deployment st ns
          (configmapapp.deployment name (normalizeImage spec) (normalizeReplicas spec)) =
            .ok st1 ∧
        api.create_namespaced_config_map st1 ns
          (configmapapp.configmap name (normalizeConfigData spec)) = .error e ∧
        e.status = 409))) ∧
    (((configmapapp.reconcile api spec name ns st).2.1.any Event.isPatchCM = true) →
      ((configmapapp.reconcile api spec name ns st).2.1.any Event.isPatchDep = true)) := by
  refine ⟨?_, ?_, ?_⟩
  · simp only [simpleapp.reconcile]
    repeat' split
    all_goals simp_all [Event.isPatchDep]
  · simp only [configmapapp.reconcile, configmapapp.conflictHandler]
    repeat' split
    all_goals simp_all [Event.isPatchDep]
  · simp only [configmapapp.reconcile, configmapapp.conflictHandler]
    repeat' split
    all_goals simp_all [Event.isPatchDep, Event.isPatchCM]

/-- Claim C1, amended, witness: a run in which the ConfigMap was patched
indeed also patched the Workload. -/
theorem patch_only_after_conflict_witness :
    ((configmapapp.reconcile clusterApi ⟨some "nginx:1.25", none, none⟩ "web" "default"
        ⟨[(("default", "web-deployment"), configmapapp.deployment "web" (some "old") 2)],
         [(("default", "web-configmap"), configmapapp.configmap "web" [("k", "v")])]⟩).2.1.any
      Event.isPatchDep = true) :=
  (patch_only_after_conflict clusterApi ⟨some "nginx:1.25", none, none⟩ "web" "default"
    ⟨[(("default", "web-deployment"), configmapapp.deployment "web" (some "old") 2)],
     [(("default", "web-configmap"), configmapapp.configmap "web" [("k", "v")])]⟩).2.2 (by rfl)

/-- Claim C2: reconcile is idempotent on the concrete store.  A second
simpleapps reconcile with the same inputs takes the patch branch and
returns the store unchanged; the same holds for a configmapapps reconcile
whenever the first call succeeded.  The body stored after the first call is
exactly the freshly built body, so the patch rewrites what is already
there. -/
theorem reconcile_idempotent (spec : Spec) (name ns : String) (st : Cluster) :
    (simpleapp.reconcile clusterApi spec name ns
        (simpleapp.reconcile clusterApi spec name ns st).1 =
      ((simpleapp.reconcile clusterApi spec name ns st).1,
       [.createDep ns (simpleapp.deployment name (normalizeImage spec) (normalizeReplicas spec)),
        .patchDep (name ++ "-deployment") ns
          (simpleapp.deployment name (normalizeImage spec) (normalizeReplicas spec)),
        .info "Updated" ("Deployment " ++ (name ++ "-deployment") ++ " updated")],
       none) ∧
     find? (simpleapp.reconcile clusterApi spec name ns st).1.deps (ns, name ++ "-deployment") =
       some (simpleapp.deployment name (normalizeImage spec) (normalizeReplicas spec))) ∧
    ((configmapapp.reconcile clusterApi spec name ns st).2.2 = none →
      configmapapp.reconcile clusterApi spec name ns
          (configmapapp.reconcile clusterApi spec name ns st).1 =
        ((configmapapp.reconcile clusterApi spec name ns st).1,
         [.createDep ns (configmapapp.deployment name (normalizeImage spec)
            (normalizeReplicas spec)),
          .patchDep (name ++ "-deployment") ns
            (configmapapp.deployment name (normalizeImage spec) (normalizeReplicas spec)),
          .info "Updated" ("Deployment " ++ (name ++ "-deployment") ++ " updated"),
          .patchCM (name ++ "-configmap") ns
            (configmapapp.configmap name (normalizeConfigData spec)),
          .info "Updated" ("ConfigMap " ++ name ++ " updated")],
         none) ∧
      find? (configmapapp.reconcile clusterApi spec name ns st).1.deps
          (ns, name ++ "-deployment") =
        some (configmapapp.deployment name (normalizeImage spec) (normalizeReplicas spec)) ∧
      find? (configmapapp.reconcile clusterApi spec name ns st).1.cms
          (ns, name ++ "-configmap") =
        some (configmapapp.configmap name (normalizeConfigData spec))) := by
  constructor
  · have hfind := simpleapp_success_find spec name ns st
    refine ⟨?_, hfind⟩
    rw [simpleapp_reconcile_dep_present spec name ns
      (simpleapp.reconcile clusterApi spec name ns st).1 _ hfind]
    rw [replaceKey_self _ _ _ hfind]
  · intro h
    obtain ⟨hfd, hfc⟩ := configmapapp_success_find spec name ns st h
    refine ⟨?_, hfd, hfc⟩
    rw [configmapapp_reconcile_dep_present_cm_present spec name ns
      (configmapapp.reconcile clusterApi spec name ns st).1 _ _ hfd hfc]
    rw [replaceKey_self _ _ _ hfd, replaceKey_self _ _ _ hfc]

/-- Claim C2, witness: from the empty store, the second run of either
reconcile with owner `web` in namespace `default` takes the patch branch
and leaves the store of the first run unchanged. -/
theorem reconcile_idempotent_witness :
    (simpleapp.reconcile clusterApi ⟨some "nginx:1.25", some 3, some [("app.conf", "k=v")]⟩
        "web" "default"
        (simpleapp.reconcile clusterApi ⟨some "nginx:1.25", some 3, some [("app.conf", "k=v")]⟩
          "web" "default" ⟨[], []⟩).1 =
      ((simpleapp.reconcile clusterApi ⟨some "nginx:1.25", some 3, some [("app.conf", "k=v")]⟩
          "web" "default" ⟨[], []⟩).1,
       [.createDep "default" (simpleapp.deployment "web"
          (normalizeImage ⟨some "nginx:1.25", some 3, some [("app.conf", "k=v")]⟩)
          (normalizeReplicas ⟨some "nginx:1.25", some 3, some [("app.conf", "k=v")]⟩)),
        .patchDep ("web" ++ "-deployment") "default"
          (simpleapp.deployment "web"
            (normalizeImage ⟨some "nginx:1.25", some 3, some [("app.conf", "k=v")]⟩)
            (normalizeReplicas ⟨some "nginx:1.25", some 3, some [("app.conf", "k=v")]⟩)),
        .info "Updated" ("Deployment " ++ ("web" ++ "-deployment") ++ " updated")],
       none)) ∧
    (configmapapp.reconcile clusterApi ⟨some "nginx:1.25", some 3, some [("app.conf", "k=v")]⟩
        "web" "default"
        (configmapapp.reconcile clusterApi
          ⟨some "nginx:1.25", some 3, some [("app.conf", "k=v")]⟩
          "web" "default" ⟨[], []⟩).1 =
      ((configmapapp.reconcile clusterApi ⟨some "nginx:1.25", some 3, some [("app.conf", "k=v")]⟩
          "web" "default" ⟨[], []⟩).1,
       [.createDep "default" (configmapapp.deployment "web"
          (normalizeImage ⟨some "nginx:1.25", some 3, some [("app.conf", "k=v")]⟩)
          (normalizeReplicas ⟨some "nginx:1.25", some 3, some [("app.conf", "k=v")]⟩)),
        .patchDep ("web" ++ "-deployment") "default"
          (configmapapp.deployment "web"
            (normalizeImage ⟨some "nginx:1.25", some 3, some [("app.conf", "k=v")]⟩)
            (normalizeReplicas ⟨some "nginx:1.25", some 3, some [("app.conf", "k=v")]⟩)),
        .info "Updated" ("Deployment " ++ ("web" ++ "-deployment") ++ " updated"),
        .patchCM ("web" ++ "-configmap") "default"
          (configmapapp.configmap "web"
            (normalizeConfigData ⟨some "nginx:1.25", some 3, some [("app.conf", "k=v")]⟩)),
        .info "Updated" ("ConfigMap " ++ "web" ++ " updated")],
       none)) :=
  ⟨(reconcile_idempotent ⟨some "nginx:1.25", some 3, some [("app.conf", "k=v")]⟩
      "web" "default" ⟨[], []⟩).1.1,
   ((reconcile_idempotent ⟨some "nginx:1.25", some 3, some [("app.conf", "k=v")]⟩
      "web" "default" ⟨[], []⟩).2 (by rfl)).1⟩

/-- Claim C3: for every owner name, the built Workload is named
`name ++ "-deployment"`, the built Configuration is named
`name ++ "-configmap"`, and both carry the label `app ↦ name`. -/
theorem built_resource_naming (name : String) (image : Option String) (replicas : Nat)
    (cfg : List (String × String)) :
    (simpleapp.deployment name image replicas).name = name ++ "-deployment" ∧
    (simpleapp.deployment name image replicas).labels = [("app", name)] ∧
    (configmapapp.deployment name image replicas).name = name ++ "-deployment" ∧
    (configmapapp.deployment name image replicas).labels = [("app", name)] ∧
    (configmapapp.configmap name cfg).name = name ++ "-configmap" ∧
    (configmapapp.configmap name cfg).labels = [("app", name)] :=
  ⟨rfl, rfl, rfl, rfl, rfl, rfl⟩

/-- Claim C4: when `replicas` is absent from the spec it normalizes to 1
and both built Workloads carry replica count 1; when `configData` is absent
it normalizes to the empty mapping and the built Configuration has empty
data.  In particular the empty spec normalizes to replicas 1 and empty
configData. -/
theorem normalize_defaults (spec : Spec) (name : String) :
    (spec.replicas = none →
      normalizeReplicas spec = 1 ∧
      (simpleapp.deployment name (normalizeImage spec) (normalizeReplicas spec)).replicas = 1 ∧
      (configmapapp.deployment name (normalizeImage spec) (normalizeReplicas spec)).replicas =
        1) ∧
    (spec.configData = none →
      normalizeConfigData spec = [] ∧
      (configmapapp.configmap name (normalizeConfigData spec)).data = []) := by
  constructor
  · intro h
    simp [normalizeReplicas, h, simpleapp.deployment, configmapapp.deployment]
  · intro h
    simp [normalizeConfigData, h, configmapapp.configmap]

/-- Claim C4, witness: the empty spec mapping yields replicas 1 and empty
configData. -/
theorem normalize_defaults_witness :
    (normalizeReplicas ⟨none, none, none⟩ = 1 ∧
     (simpleapp.deployment "web" (normalizeImage ⟨none, none, none⟩)
        (normalizeReplicas ⟨none, none, none⟩)).replicas = 1 ∧
     (configmapapp.deployment "web" (normalizeImage ⟨none, none, none⟩)
        (normalizeReplicas ⟨none, none, none⟩)).replicas = 1) ∧
    (normalizeConfigData ⟨none, none, none⟩ = [] ∧
     (configmapapp.configmap "web" (normalizeConfigData ⟨none, none, none⟩)).data = []) :=
  ⟨(normalize_defaults ⟨none, none, none⟩ "web").1 rfl,
   (normalize_defaults ⟨none, none, none⟩ "web").2 rfl⟩

/-- Claim C5, counterexample: with the Workload absent and the
Configuration already present, the configmapapps reconcile creates the
Workload, then attempts the ConfigMap create (which raises 409), and then
patches the Workload — a Workload-addressed call after a
Configuration-addressed call. -/
theorem workload_patch_after_configmap_create :
    depCallAfterCMCall
      (configmapapp.reconcile clusterApi ⟨some "nginx:1.25", none, none⟩ "web" "default"
        ⟨[], [(("default", "web-configmap"), configmapapp.configmap "web" [("a", "b")])]⟩).2.1 =
      true := by rfl

/-- Claim C5, amended: in every configmapapps reconcile the Workload's
create is the first cluster call (so every Configuration call follows it),
and no Workload patch occurs at or after a Configuration patch; but when
the Configuration's create is the call that conflicts, the Workload patch
follows that Configuration create. -/
theorem workload_create_first_patch_ordered {σ : Type} (api : Api σ) (spec : Spec)
    (name ns : String) (st : σ) :
    ((configmapapp.reconcile api spec name ns st).2.1.head? =
      some (.createDep ns (configmapapp.deployment name (normalizeImage spec)
        (normalizeReplicas spec)))) ∧
    patchDepAfterPatchCM (configmapapp.reconcile api spec name ns st).2.1 = false := by
  simp only [configmapapp.reconcile, configmapapp.conflictHandler]
  repeat' split
  all_goals simp [patchDepAfterPatchCM, Event.isPatchCM, Event.isPatchDep, Event.isCMCall,
    List.dropWhile]

/-- Claim C6: when the Workload's create fails with a status other than
409, either reconcile raises that very error at once: the returned trace
holds only the one create attempt, so no call reached the second target,
and the store is untouched. -/
theorem fatal_error_propagated_before_second_target {σ : Type} (api : Api σ) (spec : Spec)
    (name ns : String) (st : σ) (e : ApiError) :
    ((api.create_namespaced_deployment st ns
        (simpleapp.deployment name (normalizeImage spec) (normalizeReplicas spec)) = .error e ∧
      e.status ≠ 409) →
      simpleapp.reconcile api spec name ns st =
        (st, [.createDep ns (simpleapp.deployment name (normalizeImage spec)
          (normalizeReplicas spec))], some e)) ∧
    ((api.create_namespaced_deployment st ns
        (configmapapp.deployment name (normalizeImage spec) (normalizeReplicas spec)) =
          .error e ∧
      e.status ≠ 409) →
      configmapapp.reconcile api spec name ns st =
        (st, [.createDep ns (configmapapp.deployment name (normalizeImage spec)
          (normalizeReplicas spec))], some e)) := by
  constructor
  · rintro ⟨h1, h2⟩
    simp [simpleapp.reconcile, h1, h2]
  · rintro ⟨h1, h2⟩
    simp [configmapapp.reconcile, h1, h2]

/-- Claim C6, witness: under an API that rejects every call with status
500, both reconciles raise the 500 after the single Workload create
attempt. -/
theorem fatal_error_propagated_witness :
    simpleapp.reconcile errorApi ⟨some "nginx:1.25", none, none⟩ "web" "default" ⟨[], []⟩ =
      (⟨[], []⟩,
       [.createDep "default" (simpleapp.deployment "web"
          (normalizeImage ⟨some "nginx:1.25", none, none⟩)
          (normalizeReplicas ⟨some "nginx:1.25", none, none⟩))],
       some ⟨500⟩) ∧
    configmapapp.reconcile errorApi ⟨some "nginx:1.25", none, none⟩ "web" "default" ⟨[], []⟩ =
      (⟨[], []⟩,
       [.createDep "default" (configmapapp.deployment "web"
          (normalizeImage ⟨some "nginx:1.25", none, none⟩)
          (normalizeReplicas ⟨some "nginx:1.25", none, none⟩))],
       some ⟨500⟩) :=
  ⟨(fatal_error_propagated_before_second_target errorApi ⟨some "nginx:1.25", none, none⟩
      "web" "default" ⟨[], []⟩ ⟨500⟩).1 ⟨rfl, by decide⟩,
   (fatal_error_propagated_before_second_target errorApi ⟨some "nginx:1.25", none, none⟩
      "web" "default" ⟨[], []⟩ ⟨500⟩).2 ⟨rfl, by decide⟩⟩

/-- Claim C7: a target that already exists in the store is patched exactly
once, its create is attempted at most once, an Updated notification is
emitted for it and no Created notification, and the AlreadyExists conflict
is never raised: the simpleapps run with the Workload present and the
configmapapps run with the Configuration present both return `none`, and
the configmapapps run with the Workload present never raises a 409 (it can
only propagate the later ConfigMap patch failure when no ConfigMap
exists). -/
theorem existing_target_patched_once (spec : Spec) (name ns : String) (st : Cluster) :
    (∀ d0, find? st.deps (ns, name ++ "-deployment") = some d0 →
      ((simpleapp.reconcile clusterApi spec name ns st).2.1.countP Event.isPatchDep = 1) ∧
      ((simpleapp.reconcile clusterApi spec name ns st).2.1.countP Event.isCreateDep = 1) ∧
      (Event.info "Updated" ("Deployment " ++ (name ++ "-deployment") ++ " updated") ∈
        (simpleapp.reconcile clusterApi spec name ns st).2.1) ∧
      (Event.info "Created" ("Deployment " ++ (name ++ "-deployment") ++ " created") ∉
        (simpleapp.reconcile clusterApi spec name ns st).2.1) ∧
      (simpleapp.reconcile clusterApi spec name ns st).2.2 = none) ∧
    (∀ d0, find? st.deps (ns, name ++ "-deployment") = some d0 →
      ((configmapapp.reconcile clusterApi spec name ns st).2.1.countP Event.isPatchDep = 1) ∧
      ((configmapapp.reconcile clusterApi spec name ns st).2.1.countP Event.isCreateDep = 1) ∧
      (Event.info "Updated" ("Deployment " ++ (name ++ "-deployment") ++ " updated") ∈
        (configmapapp.reconcile clusterApi spec name ns st).2.1) ∧
      (Event.info "Created" ("Deployment " ++ (name ++ "-deployment") ++ " created") ∉
        (configmapapp.reconcile clusterApi spec name ns st).2.1) ∧
      (configmapapp.reconcile clusterApi spec name ns st).2.2 ≠ some ⟨409⟩) ∧
    (∀ c0, find? st.cms (ns, name ++ "-configmap") = some c0 →
      ((configmapapp.reconcile clusterApi spec name ns st).2.1.countP Event.isPatchCM = 1) ∧
      ((configmapapp.reconcile clusterApi spec name ns st).2.1.countP Event.isCreateCM ≤ 1) ∧
      (Event.info "Updated" ("ConfigMap " ++ name ++ " updated") ∈
        (configmapapp.reconcile clusterApi spec name ns st).2.1) ∧
      (Event.info "Created" ("ConfigMap " ++ (name ++ "-configmap") ++ " created") ∉
        (configmapapp.reconcile clusterApi spec name ns st).2.1) ∧
      (configmapapp.reconcile clusterApi spec name ns st).2.2 = none) := by
  refine ⟨?_, ?_, ?_⟩
  · intro d0 hd
    rw [simpleapp_reconcile_dep_present spec name ns st d0 hd]
    simp [Event.isPatchDep, Event.isCreateDep]
  · intro d0 hd
    rcases hc : find? st.cms (ns, name ++ "-configmap") with _ | c0
    · rw [configmapapp_reconcile_dep_present_cm_absent spec name ns st d0 hd hc]
      simp [Event.isPatchDep, Event.isCreateDep]
    · rw [configmapapp_reconcile_dep_present_cm_present spec name ns st d0 c0 hd hc]
      simp [Event.isPatchDep, Event.isCreateDep]
  · intro c0 hc
    rcases h : find? st.deps (ns, name ++ "-deployment") with _ | d0
    · rw [configmapapp_reconcile_dep_absent_cm_present spec name ns st c0 h hc]
      simp [Event.isPatchCM, Event.isCreateCM, cm_msg_ne_dep_msg, dep_msg_ne_cm_msg]
    · rw [configmapapp_reconcile_dep_present_cm_present spec name ns st d0 c0 h hc]
      simp [Event.isPatchCM, Event.isCreateCM, cm_msg_ne_dep_msg, dep_msg_ne_cm_msg]

/-- Claim C7, witness: with both targets already present in `default`,
the simpleapps run patches the Workload once, the configmapapps run
patches the existing Workload once and the existing ConfigMap once, each
with an Updated and no Created notification, and no run raises a 409. -/
theorem existing_target_patched_once_witness :
    (((simpleapp.reconcile clusterApi ⟨some "img:2", some 5, some [("c", "d")]⟩ "web" "default"
        ⟨[(("default", "web-deployment"), simpleapp.deployment "web" (some "old") 2)],
         [(("default", "web-configmap"), configmapapp.configmap "web" [("x", "y")])]⟩).2.1.countP
        Event.isPatchDep = 1) ∧
     ((simpleapp.reconcile clusterApi ⟨some "img:2", some 5, some [("c", "d")]⟩ "web" "default"
        ⟨[(("default", "web-deployment"), simpleapp.deployment "web" (some "old") 2)],
         [(("default", "web-configmap"), configmapapp.configmap "web" [("x", "y")])]⟩).2.1.countP
        Event.isCreateDep = 1) ∧
     (Event.info "Updated" ("Deployment " ++ ("web" ++ "-deployment") ++ " updated") ∈
       (simpleapp.reconcile clusterApi ⟨some "img:2", some 5, some [("c", "d")]⟩ "web" "default"
        ⟨[(("default", "web-deployment"), simpleapp.deployment "web" (some "old") 2)],
         [(("default", "web-configmap"), configmapapp.configmap "web" [("x", "y")])]⟩).2.1) ∧
     (Event.info "Created" ("Deployment " ++ ("web" ++ "-deployment") ++ " created") ∉
       (simpleapp.reconcile clusterApi ⟨some "img:2", some 5, some [("c", "d")]⟩ "web" "default"
        ⟨[(("default", "web-deployment"), simpleapp.deployment "web" (some "old") 2)],
         [(("default", "web-configmap"), configmapapp.configmap "web" [("x", "y")])]⟩).2.1) ∧
     (simpleapp.reconcile clusterApi ⟨some "img:2", some 5, some [("c", "d")]⟩ "web" "default"
        ⟨[(("default", "web-deployment"), simpleapp.deployment "web" (some "old") 2)],
         [(("default", "web-configmap"), configmapapp.configmap "web" [("x", "y")])]⟩).2.2 =
       none) ∧
    (((configmapapp.reconcile clusterApi ⟨some "img:2", some 5, some [("c", "d")]⟩ "web"
        "default"
        ⟨[(("default", "web-deployment"), simpleapp.deployment "web" (some "old") 2)],
         [(("default", "web-configmap"), configmapapp.configmap "web" [("x", "y")])]⟩).2.1.countP
        Event.isPatchDep = 1) ∧
     ((configmapapp.reconcile clusterApi ⟨some "img:2", some 5, some [("c", "d")]⟩ "web"
        "default"
        ⟨[(("default", "web-deployment"), simpleapp.deployment "web" (some "old") 2)],
         [(("default", "web-configmap"), configmapapp.configmap "web" [("x", "y")])]⟩).2.1.countP
        Event.isCreateDep = 1) ∧
     (Event.info "Updated" ("Deployment " ++ ("web" ++ "-deployment") ++ " updated") ∈
       (configmapapp.reconcile clusterApi ⟨some "img:2", some 5, some [("c", "d")]⟩ "web"
        "default"
        ⟨[(("default", "web-deployment"), simpleapp.deployment "web" (some "old") 2)],
         [(("default", "web-configmap"), configmapapp.configmap "web" [("x", "y")])]⟩).2.1) ∧
     (Event.info "Created" ("Deployment " ++ ("web" ++ "-deployment") ++ " created") ∉
       (configmapapp.reconcile clusterApi ⟨some "img:2", some 5, some [("c", "d")]⟩ "web"
        "default"
        ⟨[(("default", "web-deployment"), simpleapp.deployment "web" (some "old") 2)],
         [(("default", "web-configmap"), configmapapp.configmap "web" [("x", "y")])]⟩).2.1) ∧
     (configmapapp.reconcile clusterApi ⟨some "img:2", some 5, some [("c", "d")]⟩ "web" "default"
        ⟨[(("default", "web-deployment"), simpleapp.deployment "web" (some "old") 2)],
         [(("default", "web-configmap"), configmapapp.configmap "web" [("x", "y")])]⟩).2.2 ≠
       some ⟨409⟩) ∧
    (((configmapapp.reconcile clusterApi ⟨some "img:2", some 5, some [("c", "d")]⟩ "web"
        "default"
        ⟨[(("default", "web-deployment"), simpleapp.deployment "web" (some "old") 2)],
         [(("default", "web-configmap"), configmapapp.configmap "web" [("x", "y")])]⟩).2.1.countP
        Event.isPatchCM = 1) ∧
     ((configmapapp.reconcile clusterApi ⟨some "img:2", some 5, some [("c", "d")]⟩ "web"
        "default"
        ⟨[(("default", "web-deployment"), simpleapp.deployment "web" (some "old") 2)],
         [(("default", "web-configmap"), configmapapp.configmap "web" [("x", "y")])]⟩).2.1.countP
        Event.isCreateCM ≤ 1) ∧
     (Event.info "Updated" ("ConfigMap " ++ "web" ++ " updated") ∈
       (configmapapp.reconcile clusterApi ⟨some "img:2", some 5, some [("c", "d")]⟩ "web"
        "default"
        ⟨[(("default", "web-deployment"), simpleapp.deployment "web" (some "old") 2)],
         [(("default", "web-configmap"), configmapapp.configmap "web" [("x", "y")])]⟩).2.1) ∧
     (Event.info "Created" ("ConfigMap " ++ ("web" ++ "-configmap") ++ " created") ∉
       (configmapapp.reconcile clusterApi ⟨some "img:2", some 5, some [("c", "d")]⟩ "web"
        "default"
        ⟨[(("default", "web-deployment"), simpleapp.deployment "web" (some "old") 2)],
         [(("default", "web-configmap"), configmapapp.configmap "web" [("x", "y")])]⟩).2.1) ∧
     (configmapapp.reconcile clusterApi ⟨some "img:2", some 5, some [("c", "d")]⟩ "web" "default"
        ⟨[(("default", "web-deployment"), simpleapp.deployment "web" (some "old") 2)],
         [(("default", "web-configmap"), configmapapp.configmap "web" [("x", "y")])]⟩).2.2 =
       none) :=
  ⟨(existing_target_patched_once ⟨some "img:2", some 5, some [("c", "d")]⟩ "web" "default"
      ⟨[(("default", "web-deployment"), simpleapp.deployment "web" (some "old") 2)],
       [(("default", "web-configmap"), configmapapp.configmap "web" [("x", "y")])]⟩).1
     (simpleapp.deployment "web" (some "old") 2) rfl,
   (existing_target_patched_once ⟨some "img:2", some 5, some [("c", "d")]⟩ "web" "default"
      ⟨[(("default", "web-deployment"), simpleapp.deployment "web" (some "old") 2)],
       [(("default", "web-configmap"), configmapapp.configmap "web" [("x", "y")])]⟩).2.1
     (simpleapp.deployment "web" (some "old") 2) rfl,
   (existing_target_patched_once ⟨some "img:2", some 5, some [("c", "d")]⟩ "web" "default"
      ⟨[(("default", "web-deployment"), simpleapp.deployment "web" (some "old") 2)],
       [(("default", "web-configmap"), configmapapp.configmap "web" [("x", "y")])]⟩).2.2
     (configmapapp.configmap "web" [("x", "y")]) rfl⟩

/-- Claim C8: both builders set the label selector's match labels and the
pod template's labels to the same mapping `app ↦ name`, and in every
execution of either reconcile, against any cluster API, every
Workload body put on the wire satisfies this equality. -/
theorem selector_equals_template_labels (name : String) (image : Option String)
    (replicas : Nat) :
    ((simpleapp.deployment name image replicas).selector_match_labels =
      (simpleapp.deployment name image replicas).template_labels) ∧
    ((simpleapp.deployment name image replicas).selector_match_labels = [("app", name)]) ∧
    ((configmapapp.deployment name image replicas).selector_match_labels =
      (configmapapp.deployment name image replicas).template_labels) ∧
    ((configmapapp.deployment name image replicas).selector_match_labels = [("app", name)]) ∧
    (∀ {σ : Type} (api : Api σ) (spec : Spec) (ns : String) (st : σ) (ev : Event),
      (ev ∈ (simpleapp.reconcile api spec name ns st).2.1 ∨
       ev ∈ (configmapapp.reconcile api spec name ns st).2.1) →
      ∀ b, ev.depBodyOf = some b → b.selector_match_labels = b.template_labels) := by
  refine ⟨rfl, rfl, rfl, rfl, ?_⟩
  intro σ api spec ns st ev hm b hb
  rcases hm with hm | hm
  · rcases simpleapp_trace_dep_bodies api spec name ns st ev hm with h | h
    · simp [hb] at h
    · rw [hb] at h
      injection h with h2
      subst h2
      rfl
  · rcases configmapapp_trace_dep_bodies api spec name ns st ev hm with h | h
    · simp [hb] at h
    · rw [hb] at h
      injection h with h2
      subst h2
      rfl

/-- Claim C8, witness: the Workload body of the first call of a concrete
run has selector match labels equal to its template labels. -/
theorem selector_equals_template_labels_witness :
    (simpleapp.deployment "web" (normalizeImage ⟨some "nginx:1.25", some 1, none⟩)
      (normalizeReplicas ⟨some "nginx:1.25", some 1, none⟩)).selector_match_labels =
    (simpleapp.deployment "web" (normalizeImage ⟨some "nginx:1.25", some 1, none⟩)
      (normalizeReplicas ⟨some "nginx:1.25", some 1, none⟩)).template_labels :=
  (selector_equals_template_labels "web" (some "nginx:1.25") 1).2.2.2.2
    clusterApi ⟨some "nginx:1.25", some 1, none⟩ "default" ⟨[], []⟩
    (.createDep "default" (simpleapp.deployment "web"
      (normalizeImage ⟨some "nginx:1.25", some 1, none⟩)
      (normalizeReplicas ⟨some "nginx:1.25", some 1, none⟩)))
    (Or.inl (by decide)) _ rfl

/-- Claim C9: resource building is deterministic.  Every Workload body a
configmapapps (or simpleapps) trace carries is the one built from
`(name, normalized spec)` alone, every ConfigMap body likewise, and the
bodies carried by two runs over the same owner name and spec agree even
when the API, the namespace and the initial store all differ. -/
theorem build_deterministic {σ σ2 : Type} (api : Api σ) (api2 : Api σ2) (spec : Spec)
    (name ns ns2 : String) (st : σ) (st2 : σ2) :
    (∀ ev ∈ (configmapapp.reconcile api spec name ns st).2.1,
      ev.depBodyOf = none ∨
      ev.depBodyOf = some (configmapapp.deployment name (normalizeImage spec)
        (normalizeReplicas spec))) ∧
    (∀ ev ∈ (configmapapp.reconcile api spec name ns st).2.1,
      ev.cmBodyOf = none ∨
      ev.cmBodyOf = some (configmapapp.configmap name (normalizeConfigData spec))) ∧
    (∀ ev ∈ (simpleapp.reconcile api spec name ns st).2.1,
      ev.depBodyOf = none ∨
      ev.depBodyOf = some (simpleapp.deployment name (normalizeImage spec)
        (normalizeReplicas spec))) ∧
    (∀ ev ∈ (configmapapp.reconcile api spec name ns st).2.1,
      ∀ ev2 ∈ (configmapapp.reconcile api2 spec name ns2 st2).2.1,
      ∀ b b2, ev.depBodyOf = some b → ev2.depBodyOf = some b2 → b = b2) ∧
    (∀ ev ∈ (configmapapp.reconcile api spec name ns st).2.1,
      ∀ ev2 ∈ (configmapapp.reconcile api2 spec name ns2 st2).2.1,
      ∀ c c2, ev.cmBodyOf = some c → ev2.cmBodyOf = some c2 → c = c2) := by
  refine ⟨configmapapp_trace_dep_bodies api spec name ns st,
          configmapapp_trace_cm_bodies api spec name ns st,
          simpleapp_trace_dep_bodies api spec name ns st, ?_, ?_⟩
  · intro ev hev ev2 hev2 b b2 hb hb2
    rcases configmapapp_trace_dep_bodies api spec name ns st ev hev with h | h
    · simp [hb] at h
    · rcases configmapapp_trace_dep_bodies api2 spec name ns2 st2 ev2 hev2 with h2 | h2
      · simp [hb2] at h2
      · rw [hb] at h
        rw [hb2] at h2
        injection h with h
        injection h2 with h2
        rw [h, h2]
  · intro ev hev ev2 hev2 c c2 hc hc2
    rcases configmapapp_trace_cm_bodies api spec name ns st ev hev with h | h
    · simp [hc] at h
    · rcases configmapapp_trace_cm_bodies api2 spec name ns2 st2 ev2 hev2 with h2 | h2
      · simp [hc2] at h2
      · rw [hc] at h
        rw [hc2] at h2
        injection h with h
        injection h2 with h2
        rw [h, h2]

/-- Claim C9, witness: the Workload bodies carried by the first calls of
two concrete runs that differ in namespace and initial store coincide. -/
theorem build_deterministic_witness :
    configmapapp.deployment "web" (normalizeImage ⟨some "nginx:1.25", none, none⟩)
      (normalizeReplicas ⟨some "nginx:1.25", none, none⟩) =
    configmapapp.deployment "web" (normalizeImage ⟨some "nginx:1.25", none, none⟩)
      (normalizeReplicas ⟨some "nginx:1.25", none, none⟩) :=
  (build_deterministic clusterApi clusterApi ⟨some "nginx:1.25", none, none⟩ "web" "default"
      "other" ⟨[], []⟩
      ⟨[(("other", "web-deployment"), configmapapp.deployment "web" (some "old") 2)],
       []⟩).2.2.2.1
    (.createDep "default" (configmapapp.deployment "web"
      (normalizeImage ⟨some "nginx:1.25", none, none⟩)
      (normalizeReplicas ⟨some "nginx:1.25", none, none⟩))) (by decide)
    (.createDep "other" (configmapapp.deployment "web"
      (normalizeImage ⟨some "nginx:1.25", none, none⟩)
      (normalizeReplicas ⟨some "nginx:1.25", none, none⟩))) (by decide)
    _ _ rfl rfl

/-- Claim C10: in a configmapapps run whose ConfigMap already exists, the
notification emitted after the ConfigMap patch reads
`ConfigMap {name} updated` — interpolating the owner name, not the object
name `{name}-configmap` — while the creation path notifies
`ConfigMap {name}-configmap created`, with the object name. -/
theorem configmap_updated_message_uses_owner_name (spec : Spec) (name ns : String)
    (st : Cluster) :
    (∀ c0, find? st.cms (ns, name ++ "-configmap") = some c0 →
      (Event.info "Updated" ("ConfigMap " ++ name ++ " updated") ∈
        (configmapapp.reconcile clusterApi spec name ns st).2.1) ∧
      (Event.info "Updated" ("ConfigMap " ++ (name ++ "-configmap") ++ " updated") ∉
        (configmapapp.reconcile clusterApi spec name ns st).2.1)) ∧
    (find? st.deps (ns, name ++ "-deployment") = none →
      find? st.cms (ns, name ++ "-configmap") = none →
      (Event.info "Created" ("ConfigMap " ++ (name ++ "-configmap") ++ " created") ∈
        (configmapapp.reconcile clusterApi spec name ns st).2.1)) := by
  constructor
  · intro c0 hc
    rcases h : find? st.deps (ns, name ++ "-deployment") with _ | d0
    · rw [configmapapp_reconcile_dep_absent_cm_present spec name ns st c0 h hc]
      simp [cm_updated_long_ne_short, cm_msg_ne_dep_msg]
    · rw [configmapapp_reconcile_dep_present_cm_present spec name ns st d0 c0 h hc]
      simp [cm_updated_long_ne_short, cm_msg_ne_dep_msg]
  · intro hd hc
    rw [configmapapp_reconcile_both_absent spec name ns st hd hc]
    simp

/-- Claim C10, witness: with owner `web`, the update path notifies
`ConfigMap web updated` and never `ConfigMap web-configmap updated`, while
the creation path notifies `ConfigMap web-configmap created`. -/
theorem configmap_updated_message_witness :
    ((Event.info "Updated" ("ConfigMap " ++ "web" ++ " updated") ∈
       (configmapapp.reconcile clusterApi ⟨some "nginx:1.25", none, none⟩ "web" "default"
        ⟨[], [(("default", "web-configmap"),
               configmapapp.configmap "web" [("a", "b")])]⟩).2.1) ∧
     (Event.info "Updated" ("ConfigMap " ++ ("web" ++ "-configmap") ++ " updated") ∉
       (configmapapp.reconcile clusterApi ⟨some "nginx:1.25", none, none⟩ "web" "default"
        ⟨[], [(("default", "web-configmap"),
               configmapapp.configmap "web" [("a", "b")])]⟩).2.1)) ∧
    (Event.info "Created" ("ConfigMap " ++ ("web" ++ "-configmap") ++ " created") ∈
      (configmapapp.reconcile clusterApi ⟨some "nginx:1.25", none, none⟩ "web" "default"
        ⟨[], []⟩).2.1) :=
  ⟨(configmap_updated_message_uses_owner_name ⟨some "nginx:1.25", none, none⟩ "web" "default"
      ⟨[], [(("default", "web-configmap"), configmapapp.configmap "web" [("a", "b")])]⟩).1
     (configmapapp.configmap "web" [("a", "b")]) rfl,
   (configmap_updated_message_uses_owner_name ⟨some "nginx:1.25", none, none⟩ "web" "default"
      ⟨[], []⟩).2 rfl rfl⟩
